import Mathlib

/-!
Shallow embedding of `src/lambda_function.py` from the repository
`bedrock-slack-bot-integration`: a Slack → AWS Bedrock agent bridge running
as a single Lambda handler with a Redis-based deduplication store.

The external collaborators (Redis, the Bedrock agent runtime, the Slack
post API) are modelled as an oracle environment (`Env`) fixing, for one
orchestration run, the outcome of each external call in program order:
whether the dedup read raises, what the agent invocation yields, and the
transport outcome of the first and second HTTP post of the run.  The
handler itself is translated line by line from `lambda_handler` and the
three helper functions, and produces, besides the Python return value or
propagated exception, the final store state and an ordered trace of the
externally visible effects.
-/

namespace BedrockSlackBot

/-- Result of one `http.request('POST', ...)` call in
`send_message_to_slack`: either the call raises (transport failure), or it
returns a response object with an HTTP status (any status — the Python
code only logs `response.status` and never raises on a bad status). -/
inductive PostResult where
  | raised (msg : String)
  | responded (status : Nat)
deriving DecidableEq, Repr

/-- A non-empty `chunk` dictionary of one Bedrock completion event.  In the
Python code a chunk optionally carries a `"bytes"` payload
(`chunk.get("bytes")`); `bytes = none` models a chunk object present but
lacking that key. -/
structure Chunk where
  bytes : Option String
deriving DecidableEq, Repr

/-- One event of the Bedrock `completion` stream.  `none` models an event
whose `event.get("chunk", None)` is falsy (the key is absent, `None`, or an
empty dictionary), which the Python `if chunk:` test skips. -/
abbrev Fragment := Option Chunk

/-- The nested `event` object of the Slack webhook body; every field is
read with `.get`, so each is individually optional. -/
structure EventObj where
  text : Option String
  user : Option String
  channel : Option String
  ts : Option String
deriving DecidableEq, Repr

/-- A successfully parsed webhook body: `json.loads(event.get('body'))`
followed by `body_obj['event_id']` both succeeded.  `event = none` models
`body_obj.get('event')` returning `None`. -/
structure BodyObj where
  event_id : String
  event : Option EventObj
deriving DecidableEq, Repr

/-- The Lambda context; only `aws_request_id` is used by the handler. -/
structure Ctx where
  aws_request_id : String
deriving DecidableEq, Repr

/-- The environment-variable configuration the handler reads
(`SLACK_BOT_USER_ID`, `AGENT_ID`); assumed present, per the spec's
configuration section. -/
structure Config where
  slack_bot_user_id : String
  agent_id : String
deriving DecidableEq, Repr

/-- Oracle for the external calls of one run, in program order:
`readErr` — whether `redis_client.exists` raises (and with what message);
`invokeResult` — `bedrock.invoke_agent` either raises or yields the
completion stream; `post1`/`post2` — transport outcome of the first and
(when reached) second Slack post of the run; `markErr` — whether
`redis_client.setex` raises. -/
structure Env where
  readErr : Option String
  invokeResult : Except String (List Fragment)
  post1 : PostResult
  post2 : PostResult
  markErr : Option String
deriving Repr

/-- The dedup store: an association of keys to (value, remaining TTL in
seconds).  `setex` prepends; `exists` checks key membership. -/
abbrev Store := List (String × String × Nat)

/-- `redis_client.exists(event_id)` on a store that answers (the raising
case is driven by `Env.readErr`). -/
def Store.existsKey (s : Store) (k : String) : Bool :=
  s.any (fun e => e.1 == k)

/-- `redis_client.setex(event_id, ttl, value)`. -/
def Store.setex (s : Store) (k v : String) (ttl : Nat) : Store :=
  (k, v, ttl) :: s

/-- Value and TTL currently associated with a key, if any. -/
def Store.lookup (s : Store) (k : String) : Option (String × Nat) :=
  (s.find? (fun e => e.1 == k)).map (fun e => e.2)

/-- Decidable equality for `Except`, used to evaluate runs at concrete
environments. -/
instance {ε α : Type} [DecidableEq ε] [DecidableEq α] : DecidableEq (Except ε α)
  | .error a, .error b =>
    if h : a = b then isTrue (by rw [h]) else isFalse (by intro hc; cases hc; exact h rfl)
  | .ok a, .ok b =>
    if h : a = b then isTrue (by rw [h]) else isFalse (by intro hc; cases hc; exact h rfl)
  | .error _, .ok _ => isFalse (by intro hc; cases hc)
  | .ok _, .error _ => isFalse (by intro hc; cases hc)

/-- Python `str.replace` on character lists: replace every left-to-right
non-overlapping occurrence of `pat`.  The recursion is on a fuel counter
bounded below by the input length (each step consumes at least one
character, so fuel never runs out at the call site); the call sites always
pass a non-empty pattern — for an empty pattern this model is the
identity. -/
def replaceCore (pat rep : List Char) : Nat → List Char → List Char
  | _, [] => []
  | 0, l => l
  | fuel + 1, c :: rest =>
    if pat ≠ [] ∧ pat.isPrefixOf (c :: rest) then
      rep ++ replaceCore pat rep fuel ((c :: rest).drop pat.length)
    else
      c :: replaceCore pat rep fuel rest

/-- Python `str.replace` on strings. -/
def pyReplace (s pat rep : String) : String :=
  ⟨replaceCore pat.data rep.data s.data.length s.data⟩

/-- Python `str.strip()`: drop whitespace from both ends. -/
def pyStrip (s : String) : String :=
  ⟨((s.data.dropWhile Char.isWhitespace).reverse.dropWhile Char.isWhitespace).reverse⟩

/-- The fixed fallback returned by `call_bedrock_agent` when the
accumulated completion is empty. -/
def fallbackResponse : String := "No response from the agent."

/-- Model of the `AttributeError` raised by `chunk.get("bytes").decode()`
when a (non-empty) chunk object has no `"bytes"` key. -/
def bytesAttributeError : String :=
  "AttributeError: NoneType object has no attribute decode"

/-- The loop of `call_bedrock_agent` over the completion stream:
`for event in response.get("completion"): chunk = event.get("chunk", None);
if chunk: decoded_bytes = chunk.get("bytes").decode();
if decoded_bytes.strip(): completion = completion + decoded_bytes`.
Falsy chunks are skipped; a chunk without bytes raises; a decoded payload
that strips to empty is not appended. -/
def accumulateCompletion : List Fragment → String → Except String String
  | [], acc => .ok acc
  | none :: rest, acc => accumulateCompletion rest acc
  | some c :: rest, acc =>
    match c.bytes with
    | none => .error bytesAttributeError
    | some s =>
      if pyStrip s == "" then accumulateCompletion rest acc
      else accumulateCompletion rest (acc ++ s)

/-- `call_bedrock_agent`: the underlying `invoke_agent` call either raises
(re-raised by the `except` block) or yields the stream, which is consumed
by `accumulateCompletion`; on completion the accumulated text is returned,
or the fixed fallback string when it is empty. -/
def call_bedrock_agent (invokeResult : Except String (List Fragment)) :
    Except String String :=
  match invokeResult with
  | .error e => .error e
  | .ok frags =>
    match accumulateCompletion frags "" with
    | .error e => .error e
    | .ok completion =>
      .ok (if completion == "" then fallbackResponse else completion)

/-- Python rendering of an optional string in an f-string (`None` prints as
`"None"`). -/
def pyStr : Option String → String
  | none => "None"
  | some s => s

/-- The fixed prefix of the apology message built in the `except` branch of
`lambda_handler`, up to the interpolated error detail. -/
def apologyPrefix : String :=
  "Uh-oh! Something went wrong. Please try again in a few minutes or reach out to our support team if the issue persists. (Error: "

/-- The user-facing apology embedding the error detail:
`f"... (Error: {e})"`. -/
def apologyMessage (e : String) : String :=
  apologyPrefix ++ e ++ ")"

/-- The `text` field built by `send_message_to_slack`:
`f"<@{user_id}> {message}"`. -/
def slackText (user_id : Option String) (message : String) : String :=
  "<@" ++ pyStr user_id ++ "> " ++ message

/-- Externally visible actions of one run, in order of occurrence. -/
inductive Effect where
  | storeExists (key : String) (result : Bool)
  | agentInvoke (question sessionId : String)
  | notifyCall (channel : Option String) (text : String)
      (thread : Option String) (post : PostResult)
  | storeWrite (key value : String) (ttlSeconds : Nat)
deriving DecidableEq, Repr

/-- What `lambda_handler` does at its boundary: return the Python dict
`{'statusCode': sc, 'body': json.dumps({'message': m})}` or propagate an
exception. -/
inductive Outcome where
  | returned (statusCode : Nat) (bodyMessage : String)
  | raised (msg : String)
deriving DecidableEq, Repr

/-- Result of one orchestration run: outcome, final store state, and the
ordered effect trace. -/
structure RunResult where
  outcome : Outcome
  store : Store
  trace : List Effect
deriving DecidableEq, Repr

/-- Model of the exception propagated when `json.loads(event.get('body'))`
or `body_obj['event_id']` fails. -/
def malformedBodyError : String := "MalformedEventError"

/-- Model of the `AttributeError` from calling `.get`/`.replace` on `None`
when the nested `event` object or its `text` is missing. -/
def missingFieldError : String := "AttributeError: NoneType object has no attribute get"

/-- `lambda_handler`, translated control-flow-faithfully from the source.
`body = none` models a body whose parse or `['event_id']` access raises
(the exception propagates: there is no surrounding `try`).  On the
non-duplicate path the nested fields are read, the self-message filter
applied, the question sanitised, and then the
`try: call_bedrock_agent; send_message_to_slack; mark_event_as_processed`
block runs with its `except` sending the apology (whose own post failure
propagates). -/
def lambda_handler (cfg : Config) (env : Env) (ctx : Ctx) (store : Store)
    (body : Option BodyObj) : RunResult :=
  match body with
  | none => ⟨.raised malformedBodyError, store, []⟩
  | some b =>
    match env.readErr with
    | some m => ⟨.raised m, store, []⟩
    | none =>
      if Store.existsKey store b.event_id then
        ⟨.returned 200 "Success", store, [.storeExists b.event_id true]⟩
      else
        match b.event with
        | none => ⟨.raised missingFieldError, store, [.storeExists b.event_id false]⟩
        | some ev =>
          if ev.user = some cfg.slack_bot_user_id then
            ⟨.returned 200 "Bot ignored its own message", store,
              [.storeExists b.event_id false]⟩
          else
            match ev.text with
            | none => ⟨.raised missingFieldError, store, [.storeExists b.event_id false]⟩
            | some t =>
              let cleaned :=
                pyStrip (pyReplace t ("<@" ++ cfg.slack_bot_user_id ++ ">") "")
              let tr1 : List Effect :=
                [.storeExists b.event_id false, .agentInvoke cleaned ctx.aws_request_id]
              match call_bedrock_agent env.invokeResult with
              | .error e =>
                let text := slackText ev.user (apologyMessage e)
                let tr2 := tr1 ++ [.notifyCall ev.channel text ev.ts env.post1]
                match env.post1 with
                | .raised m => ⟨.raised m, store, tr2⟩
                | .responded _ => ⟨.returned 200 "Success", store, tr2⟩
              | .ok answer =>
                let text1 := slackText ev.user answer
                let tr2 := tr1 ++ [.notifyCall ev.channel text1 ev.ts env.post1]
                match env.post1 with
                | .raised m =>
                  let text2 := slackText ev.user (apologyMessage m)
                  let tr3 := tr2 ++ [.notifyCall ev.channel text2 ev.ts env.post2]
                  match env.post2 with
                  | .raised m2 => ⟨.raised m2, store, tr3⟩
                  | .responded _ => ⟨.returned 200 "Success", store, tr3⟩
                | .responded _ =>
                  match env.markErr with
                  | some me =>
                    let text2 := slackText ev.user (apologyMessage me)
                    let tr3 := tr2 ++ [.notifyCall ev.channel text2 ev.ts env.post2]
                    match env.post2 with
                    | .raised m2 => ⟨.raised m2, store, tr3⟩
                    | .responded _ => ⟨.returned 200 "Success", store, tr3⟩
                  | none =>
                    ⟨.returned 200 "Success",
                      Store.setex store b.event_id "processed" 3600,
                      tr2 ++ [.storeWrite b.event_id "processed" 3600]⟩

/-- Whether an effect is an agent invocation. -/
def Effect.isAgentInvoke : Effect → Bool
  | .agentInvoke .. => true
  | _ => false

/-- Whether an effect is a call to `send_message_to_slack`. -/
def Effect.isNotifyCall : Effect → Bool
  | .notifyCall .. => true
  | _ => false

/-- Whether an effect is a dedup-store write. -/
def Effect.isStoreWrite : Effect → Bool
  | .storeWrite .. => true
  | _ => false

/-- Number of calls to `send_message_to_slack` in a trace. -/
def notifyCount (t : List Effect) : Nat :=
  (t.filter Effect.isNotifyCall).length

/-- Payload carried by a fragment, when its chunk has one. -/
def fragPayload : Fragment → Option String
  | none => none
  | some c => c.bytes

/-- A fragment the completion loop can consume without raising: either no
(truthy) chunk at all, or a chunk that carries its byte payload. -/
def wellFormedFrag : Fragment → Bool
  | none => true
  | some c => c.bytes.isSome

/-- In-arrival-order concatenation of a list of strings. -/
def concatStrings : List String → String
  | [] => ""
  | s :: rest => s ++ concatStrings rest

/-- Modelled from the spec's words, for comparison with the code (claim C6
as stated): the in-arrival-order concatenation of the decoded byte
payloads of the fragments that carry one. -/
def claimedAccumulation (frags : List Fragment) : String :=
  concatStrings (frags.filterMap fragPayload)

/-- What the code actually accumulates: the payloads of the fragments that
carry one, except those that strip to the empty string. -/
def strippedAccumulation (frags : List Fragment) : String :=
  concatStrings ((frags.filterMap fragPayload).filter (fun s => !(pyStrip s == "")))

/-- Example configuration: bot identity `BOT`, agent `AG`. -/
def cfgEx : Config := ⟨"BOT", "AG"⟩

/-- Example Lambda context. -/
def ctxEx : Ctx := ⟨"REQ1"⟩

/-- Example Slack event from user `U1`. -/
def evEx : EventObj := ⟨some "<@BOT> hi", some "U1", some "C1", some "T1"⟩

/-- Example parsed body with event id `EV1`. -/
def bodyEx : BodyObj := ⟨"EV1", some evEx⟩

/-- Example event sent by the bot itself (`user = BOT`). -/
def evSelfEx : EventObj := ⟨some "hello", some "BOT", some "C1", some "T1"⟩

/-- Example parsed body carrying the bot's own message. -/
def bodySelfEx : BodyObj := ⟨"EV2", some evSelfEx⟩

/-- Environment where every external call succeeds. -/
def envOKEx : Env :=
  ⟨none, .ok [some ⟨some "answer"⟩], .responded 200, .responded 200, none⟩

/-- Environment where only the final `setex` write raises. -/
def envMarkFailEx : Env :=
  ⟨none, .ok [some ⟨some "answer"⟩], .responded 200, .responded 200, some "RedisError"⟩

/-- Environment where the success-notification post raises. -/
def envNotifyRaiseEx : Env :=
  ⟨none, .ok [some ⟨some "answer"⟩], .raised "ConnectionError", .responded 200, none⟩

/-- Environment where the agent invocation raises. -/
def envAgentFailEx : Env :=
  ⟨none, .error "ThrottlingException", .responded 200, .responded 200, none⟩

/-- A store already holding the mark for `EV1`. -/
def storeDupEx : Store := [("EV1", "processed", 3600)]

/-- C1: for an inbound event whose `event_id` is already in the dedup
store (and whose dedup read answers), the run performs no agent
invocation, sends no notification, leaves the store unchanged, and
returns the 200 "Success" acknowledgment. -/
theorem duplicate_event_is_noop (cfg : Config) (env : Env) (ctx : Ctx)
    (store : Store) (b : BodyObj) (hread : env.readErr = none)
    (hdup : Store.existsKey store b.event_id = true) :
    (lambda_handler cfg env ctx store (some b)).trace.filter Effect.isAgentInvoke = [] ∧
    (lambda_handler cfg env ctx store (some b)).trace.filter Effect.isNotifyCall = [] ∧
    (lambda_handler cfg env ctx store (some b)).store = store ∧
    (lambda_handler cfg env ctx store (some b)).outcome = .returned 200 "Success" := by
  simp [lambda_handler, hread, hdup, Effect.isAgentInvoke, Effect.isNotifyCall]

/-- C1 witness: the duplicate-delivery run at a concrete store holding
`EV1`. -/
theorem duplicate_event_is_noop_witness :
    (lambda_handler cfgEx envOKEx ctxEx storeDupEx (some bodyEx)).trace.filter
        Effect.isAgentInvoke = [] ∧
    (lambda_handler cfgEx envOKEx ctxEx storeDupEx (some bodyEx)).trace.filter
        Effect.isNotifyCall = [] ∧
    (lambda_handler cfgEx envOKEx ctxEx storeDupEx (some bodyEx)).store = storeDupEx ∧
    (lambda_handler cfgEx envOKEx ctxEx storeDupEx (some bodyEx)).outcome =
      .returned 200 "Success" :=
  duplicate_event_is_noop cfgEx envOKEx ctxEx storeDupEx bodyEx rfl (by decide)

/-- C5: for an event sent by the bot itself (and whose dedup read
answers), the run performs no agent invocation, sends no notification,
leaves the store unchanged — so nothing leaks into later runs — and
returns a 200 response. -/
theorem self_message_is_noop (cfg : Config) (env : Env) (ctx : Ctx)
    (store : Store) (b : BodyObj) (ev : EventObj)
    (hread : env.readErr = none) (hevent : b.event = some ev)
    (huser : ev.user = some cfg.slack_bot_user_id) :
    (lambda_handler cfg env ctx store (some b)).trace.filter Effect.isAgentInvoke = [] ∧
    (lambda_handler cfg env ctx store (some b)).trace.filter Effect.isNotifyCall = [] ∧
    (lambda_handler cfg env ctx store (some b)).store = store ∧
    ∃ m, (lambda_handler cfg env ctx store (some b)).outcome = .returned 200 m := by
  cases hdup : Store.existsKey store b.event_id <;>
    simp [lambda_handler, hread, hdup, hevent, huser,
      Effect.isAgentInvoke, Effect.isNotifyCall]

/-- C5 witness: the self-message run at a concrete event whose sender is
the bot identity. -/
theorem self_message_is_noop_witness :
    (lambda_handler cfgEx envOKEx ctxEx [] (some bodySelfEx)).trace.filter
        Effect.isAgentInvoke = [] ∧
    (lambda_handler cfgEx envOKEx ctxEx [] (some bodySelfEx)).trace.filter
        Effect.isNotifyCall = [] ∧
    (lambda_handler cfgEx envOKEx ctxEx [] (some bodySelfEx)).store = [] ∧
    ∃ m, (lambda_handler cfgEx envOKEx ctxEx [] (some bodySelfEx)).outcome =
      .returned 200 m :=
  self_message_is_noop cfgEx envOKEx ctxEx [] bodySelfEx evSelfEx rfl rfl rfl

/-- C2 counterexample: a self-message run returns statusCode 200 but with
body message "Bot ignored its own message", not "Success" — so the
acknowledgment body does vary with the internal branch taken. -/
theorem ack_body_varies_counterexample :
    (lambda_handler cfgEx envOKEx ctxEx [] (some bodySelfEx)).outcome =
      .returned 200 "Bot ignored its own message" ∧
    "Bot ignored its own message" ≠ "Success" := by decide

/-- C2 amended: whenever `lambda_handler` returns at all, the statusCode
is 200 and the body message is "Success" — except for the self-message
branch, whose body is "Bot ignored its own message".  (Runs with a
malformed body, a raising dedup read, a missing nested field, or a
raising apology post propagate an exception instead of returning.) -/
theorem returned_ack_is_200 (cfg : Config) (env : Env) (ctx : Ctx)
    (store : Store) (body : Option BodyObj) (sc : Nat) (m : String)
    (h : (lambda_handler cfg env ctx store body).outcome = .returned sc m) :
    sc = 200 ∧ (m = "Success" ∨ m = "Bot ignored its own message") := by
  obtain ⟨re, ir, p1, p2, me⟩ := env
  cases body with
  | none => simp [lambda_handler] at h
  | some b =>
    cases re with
    | some e => simp [lambda_handler] at h
    | none =>
      cases hdup : Store.existsKey store b.event_id with
      | true => simp [lambda_handler, hdup] at h; simp [h.1, h.2]
      | false =>
        cases hevent : b.event with
        | none => simp [lambda_handler, hdup, hevent] at h
        | some ev =>
          by_cases huser : ev.user = some cfg.slack_bot_user_id
          · simp [lambda_handler, hdup, hevent, huser] at h
            simp [h.1, h.2]
          · cases htext : ev.text with
            | none => simp [lambda_handler, hdup, hevent, huser, htext] at h
            | some t =>
              cases hca : call_bedrock_agent ir with
              | error e =>
                cases p1 <;>
                  simp [lambda_handler, hdup, hevent, huser, htext, hca] at h <;>
                  simp [h.1, h.2]
              | ok a =>
                cases p1 with
                | raised m1 =>
                  cases p2 <;>
                    simp [lambda_handler, hdup, hevent, huser, htext, hca] at h <;>
                    simp [h.1, h.2]
                | responded st =>
                  cases me with
                  | some e2 =>
                    cases p2 <;>
                      simp [lambda_handler, hdup, hevent, huser, htext, hca] at h <;>
                      simp [h.1, h.2]
                  | none =>
                    simp [lambda_handler, hdup, hevent, huser, htext, hca] at h
                    simp [h.1, h.2]

/-- C2 witness: the amended statement applied to a concrete successful
run. -/
theorem returned_ack_is_200_witness :
    200 = 200 ∧ ("Success" = "Success" ∨ "Success" = "Bot ignored its own message") :=
  returned_ack_is_200 cfgEx envOKEx ctxEx [] (some bodyEx) 200 "Success" (by decide)

/-- C10 counterexample: a malformed body (modelled by `body = none`, i.e.
`json.loads` or the `['event_id']` access raised) makes the handler
propagate the exception: the outcome is a raise, not the 200 "Success"
acknowledgment the claim promises. -/
theorem malformed_body_no_ack_counterexample :
    (lambda_handler cfgEx envOKEx ctxEx [] none).outcome = .raised malformedBodyError ∧
    (lambda_handler cfgEx envOKEx ctxEx [] none).outcome ≠ .returned 200 "Success" := by
  decide

/-- C10 amended: a malformed body aborts the run with no dedup mark and no
notification (empty effect trace, store unchanged), but the exception
propagates to the event source instead of a success acknowledgment. -/
theorem malformed_body_aborts_with_no_side_effects (cfg : Config) (env : Env)
    (ctx : Ctx) (store : Store) :
    (lambda_handler cfg env ctx store none).store = store ∧
    (lambda_handler cfg env ctx store none).trace = [] ∧
    (lambda_handler cfg env ctx store none).outcome = .raised malformedBodyError :=
  ⟨rfl, rfl, rfl⟩

/-- Environment where the success-notification post returns an HTTP error
status (the post itself does not raise). -/
def envNotify500Ex : Env :=
  ⟨none, .ok [some ⟨some "answer"⟩], .responded 500, .responded 200, none⟩

/-- C3: when the agent invocation raises, the event is not marked
processed (the key is absent from the store afterwards, given it was
absent at the dedup check), the notifier is called exactly once in the
run, and its message embeds the error detail. -/
theorem agent_failure_no_mark_one_notify (cfg : Config) (env : Env) (ctx : Ctx)
    (store : Store) (b : BodyObj) (ev : EventObj) (t e : String)
    (hread : env.readErr = none)
    (hdup : Store.existsKey store b.event_id = false)
    (hevent : b.event = some ev)
    (huser : ev.user ≠ some cfg.slack_bot_user_id)
    (htext : ev.text = some t)
    (hagent : call_bedrock_agent env.invokeResult = .error e) :
    Store.existsKey (lambda_handler cfg env ctx store (some b)).store b.event_id = false ∧
    notifyCount (lambda_handler cfg env ctx store (some b)).trace = 1 ∧
    (lambda_handler cfg env ctx store (some b)).trace.filter Effect.isNotifyCall =
      [.notifyCall ev.channel (slackText ev.user (apologyMessage e)) ev.ts env.post1] ∧
    ∃ s1 s2, slackText ev.user (apologyMessage e) = s1 ++ e ++ s2 := by
  refine ⟨?_, ?_, ?_, "<@" ++ pyStr ev.user ++ "> " ++ apologyPrefix, ")", ?_⟩ <;>
    first
    | (cases hp : env.post1 <;>
        simp [lambda_handler, hread, hdup, hevent, huser, htext, hagent, hp,
          notifyCount, Effect.isNotifyCall])
    | simp [slackText, apologyMessage, String.append_assoc]

/-- C3 witness: a run whose agent invocation raises `ThrottlingException`
against the empty store. -/
theorem agent_failure_no_mark_one_notify_witness :
    Store.existsKey (lambda_handler cfgEx envAgentFailEx ctxEx [] (some bodyEx)).store
      "EV1" = false ∧
    notifyCount (lambda_handler cfgEx envAgentFailEx ctxEx [] (some bodyEx)).trace = 1 ∧
    (lambda_handler cfgEx envAgentFailEx ctxEx [] (some bodyEx)).trace.filter
        Effect.isNotifyCall =
      [.notifyCall (some "C1")
        (slackText (some "U1") (apologyMessage "ThrottlingException"))
        (some "T1") (.responded 200)] ∧
    ∃ s1 s2, slackText (some "U1") (apologyMessage "ThrottlingException") =
      s1 ++ "ThrottlingException" ++ s2 :=
  agent_failure_no_mark_one_notify cfgEx envAgentFailEx ctxEx [] bodyEx evEx
    "<@BOT> hi" "ThrottlingException" rfl (by decide) rfl (by decide) rfl (by decide)

/-- C4: on the fully successful path the dedup key is written with the
sentinel value "processed" and TTL 3600 seconds, and the trace shows the
write as the last effect of the run, strictly after the agent invocation
and the success notification; before it the store is untouched (it still
lacks the key, by the dedup-check hypothesis). -/
theorem success_marks_after_agent_and_notify (cfg : Config) (env : Env) (ctx : Ctx)
    (store : Store) (b : BodyObj) (ev : EventObj) (t ans : String) (st : Nat)
    (hread : env.readErr = none)
    (hdup : Store.existsKey store b.event_id = false)
    (hevent : b.event = some ev)
    (huser : ev.user ≠ some cfg.slack_bot_user_id)
    (htext : ev.text = some t)
    (hagent : call_bedrock_agent env.invokeResult = .ok ans)
    (hpost : env.post1 = .responded st)
    (hmark : env.markErr = none) :
    (lambda_handler cfg env ctx store (some b)).outcome = .returned 200 "Success" ∧
    (lambda_handler cfg env ctx store (some b)).store =
      Store.setex store b.event_id "processed" 3600 ∧
    Store.lookup (lambda_handler cfg env ctx store (some b)).store b.event_id =
      some ("processed", 3600) ∧
    (lambda_handler cfg env ctx store (some b)).trace =
      [.storeExists b.event_id false,
       .agentInvoke (pyStrip (pyReplace t ("<@" ++ cfg.slack_bot_user_id ++ ">") ""))
         ctx.aws_request_id,
       .notifyCall ev.channel (slackText ev.user ans) ev.ts (.responded st),
       .storeWrite b.event_id "processed" 3600] := by
  simp [lambda_handler, hread, hdup, hevent, huser, htext, hagent, hpost, hmark,
    Store.lookup, Store.setex, List.find?]

/-- C4 witness: the successful run on the empty store, checked
concretely. -/
theorem success_marks_after_agent_and_notify_witness :
    (lambda_handler cfgEx envOKEx ctxEx [] (some bodyEx)).outcome =
      .returned 200 "Success" ∧
    (lambda_handler cfgEx envOKEx ctxEx [] (some bodyEx)).store =
      Store.setex [] "EV1" "processed" 3600 ∧
    Store.lookup (lambda_handler cfgEx envOKEx ctxEx [] (some bodyEx)).store "EV1" =
      some ("processed", 3600) ∧
    (lambda_handler cfgEx envOKEx ctxEx [] (some bodyEx)).trace =
      [.storeExists "EV1" false,
       .agentInvoke (pyStrip (pyReplace "<@BOT> hi" ("<@" ++ cfgEx.slack_bot_user_id ++ ">") ""))
         ctxEx.aws_request_id,
       .notifyCall (some "C1") (slackText (some "U1") "answer") (some "T1") (.responded 200),
       .storeWrite "EV1" "processed" 3600] :=
  success_marks_after_agent_and_notify cfgEx envOKEx ctxEx [] bodyEx evEx
    "<@BOT> hi" "answer" 200 rfl (by decide) rfl (by decide) rfl (by decide) rfl rfl

/-- C8 counterexample: when the success-notification post raises (a
transport failure), the `except` branch is taken before
`mark_event_as_processed` runs — the event is NOT marked processed,
contradicting the claim that a notification failure never prevents the
mark. -/
theorem notify_raise_prevents_mark_counterexample :
    call_bedrock_agent envNotifyRaiseEx.invokeResult = .ok "answer" ∧
    envNotifyRaiseEx.post1 = .raised "ConnectionError" ∧
    (lambda_handler cfgEx envNotifyRaiseEx ctxEx [] (some bodyEx)).store = [] ∧
    Store.existsKey (lambda_handler cfgEx envNotifyRaiseEx ctxEx [] (some bodyEx)).store
      "EV1" = false := by decide

/-- C8 amended: when the success notification "fails" by returning an
error HTTP status (the Python code only logs `response.status` and never
raises on a bad status), the event is still marked processed; but a
notification post that raises prevents the mark (see the
counterexample). -/
theorem notify_error_status_still_marks (cfg : Config) (env : Env) (ctx : Ctx)
    (store : Store) (b : BodyObj) (ev : EventObj) (t ans : String) (st : Nat)
    (hread : env.readErr = none)
    (hdup : Store.existsKey store b.event_id = false)
    (hevent : b.event = some ev)
    (huser : ev.user ≠ some cfg.slack_bot_user_id)
    (htext : ev.text = some t)
    (hagent : call_bedrock_agent env.invokeResult = .ok ans)
    (hpost : env.post1 = .responded st)
    (hmark : env.markErr = none) :
    Store.existsKey (lambda_handler cfg env ctx store (some b)).store b.event_id = true ∧
    (lambda_handler cfg env ctx store (some b)).trace.filter Effect.isStoreWrite =
      [.storeWrite b.event_id "processed" 3600] := by
  have hs : (lambda_handler cfg env ctx store (some b)).store =
      (b.event_id, "processed", 3600) :: store := by
    simp [lambda_handler, hread, hdup, hevent, huser, htext, hagent, hpost, hmark,
      Store.setex]
  have ht : (lambda_handler cfg env ctx store (some b)).trace.filter Effect.isStoreWrite =
      [.storeWrite b.event_id "processed" 3600] := by
    simp [lambda_handler, hread, hdup, hevent, huser, htext, hagent, hpost, hmark,
      Effect.isStoreWrite]
  refine ⟨?_, ht⟩
  rw [hs]
  simp [Store.existsKey]

/-- C8 witness: the amended statement at a success notification answered
with HTTP status 500. -/
theorem notify_error_status_still_marks_witness :
    Store.existsKey (lambda_handler cfgEx envNotify500Ex ctxEx [] (some bodyEx)).store
      "EV1" = true ∧
    (lambda_handler cfgEx envNotify500Ex ctxEx [] (some bodyEx)).trace.filter
        Effect.isStoreWrite = [.storeWrite "EV1" "processed" 3600] :=
  notify_error_status_still_marks cfgEx envNotify500Ex ctxEx [] bodyEx evEx
    "<@BOT> hi" "answer" 500 rfl (by decide) rfl (by decide) rfl (by decide) rfl rfl

/-- The completion loop accumulates exactly the payloads that do not strip
to the empty string, in arrival order, appended to the running
accumulator, provided every chunk-bearing fragment carries its bytes. -/
theorem accumulateCompletion_ok :
    ∀ frags : List Fragment, frags.all wellFormedFrag = true →
      ∀ acc, accumulateCompletion frags acc = .ok (acc ++ strippedAccumulation frags) := by
  intro frags
  induction frags with
  | nil =>
    intro _ acc
    simp [accumulateCompletion, strippedAccumulation, concatStrings]
  | cons f rest ih =>
    intro hwf acc
    simp only [List.all_cons, Bool.and_eq_true] at hwf
    cases f with
    | none =>
      simp [accumulateCompletion, ih hwf.2, strippedAccumulation, fragPayload]
    | some c =>
      cases hb : c.bytes with
      | none => simp [wellFormedFrag, hb] at hwf
      | some s =>
        cases hs : (pyStrip s == "") with
        | true =>
          simp [accumulateCompletion, hb, hs, ih hwf.2, strippedAccumulation,
            fragPayload]
        | false =>
          simp [accumulateCompletion, hb, hs, ih hwf.2, strippedAccumulation,
            fragPayload, concatStrings, String.append_assoc]

/-- C6 counterexample: for the single fragment carrying the payload `" "`,
the claimed accumulation (plain concatenation of carried payloads) is
`" "`, which is non-empty, so the claim predicts the result `" "`; the
code skips whitespace-only payloads (`if decoded_bytes.strip():`) and
returns the fallback string instead. -/
theorem whitespace_payload_counterexample :
    claimedAccumulation [some ⟨some " "⟩] = " " ∧
    " " ≠ "" ∧
    call_bedrock_agent (.ok [some ⟨some " "⟩]) = .ok fallbackResponse ∧
    fallbackResponse ≠ " " := by decide

/-- C6 amended: `call_bedrock_agent` returns the in-arrival-order
concatenation of the decoded payloads of the fragments that carry one,
except that payloads consisting only of whitespace are skipped; if that
accumulation is empty the fixed fallback string is returned.  The spec's
round-trip examples hold. -/
theorem agent_response_accumulation (frags : List Fragment)
    (hwf : frags.all wellFormedFrag = true) :
    call_bedrock_agent (.ok frags) =
      .ok (if strippedAccumulation frags == "" then fallbackResponse
           else strippedAccumulation frags) ∧
    call_bedrock_agent
        (.ok [some ⟨some "Hel"⟩, some ⟨some "lo, "⟩, some ⟨some "world"⟩]) =
      .ok "Hello, world" ∧
    call_bedrock_agent (.ok []) = .ok fallbackResponse := by
  refine ⟨?_, by decide, by decide⟩
  simp [call_bedrock_agent, accumulateCompletion_ok frags hwf]

/-- C6 witness: the amended statement at the spec's own three-fragment
example. -/
theorem agent_response_accumulation_witness :
    call_bedrock_agent
        (.ok [some ⟨some "Hel"⟩, some ⟨some "lo, "⟩, some ⟨some "world"⟩]) =
      .ok (if strippedAccumulation
              [some ⟨some "Hel"⟩, some ⟨some "lo, "⟩, some ⟨some "world"⟩] == ""
           then fallbackResponse
           else strippedAccumulation
              [some ⟨some "Hel"⟩, some ⟨some "lo, "⟩, some ⟨some "world"⟩]) ∧
    call_bedrock_agent
        (.ok [some ⟨some "Hel"⟩, some ⟨some "lo, "⟩, some ⟨some "world"⟩]) =
      .ok "Hello, world" ∧
    call_bedrock_agent (.ok []) = .ok fallbackResponse :=
  agent_response_accumulation
    [some ⟨some "Hel"⟩, some ⟨some "lo, "⟩, some ⟨some "world"⟩] (by decide)

/-- C7 counterexample: a fragment whose chunk object carries no `"bytes"`
payload makes `chunk.get("bytes").decode()` raise an `AttributeError`
(re-raised by the `except` block) — a payload-less fragment CAN make the
invocation raise. -/
theorem payloadless_chunk_raises_counterexample :
    fragPayload (some ⟨none⟩) = none ∧
    call_bedrock_agent (.ok [some ⟨none⟩]) = .error bytesAttributeError := by decide

/-- Inserting a chunk-less fragment anywhere in the stream leaves the
accumulation loop's result unchanged. -/
theorem accumulateCompletion_skips_chunkless :
    ∀ (l1 l2 : List Fragment) (acc : String),
      accumulateCompletion (l1 ++ none :: l2) acc = accumulateCompletion (l1 ++ l2) acc := by
  intro l1
  induction l1 with
  | nil => intro l2 acc; simp [accumulateCompletion]
  | cons f rest ih =>
    intro l2 acc
    cases f with
    | none => simp [accumulateCompletion, ih]
    | some c =>
      cases hb : c.bytes with
      | none => simp [accumulateCompletion, hb]
      | some s =>
        cases hs : (pyStrip s == "") <;>
          simp [accumulateCompletion, hb, hs, ih]

/-- C7 amended: a fragment with no (truthy) chunk — `event.get("chunk",
None)` absent, `None`, or falsy — is skipped without affecting the result
and never causes a raise; but a fragment whose chunk lacks the byte
payload raises (see the counterexample). -/
theorem chunkless_fragment_skipped (l1 l2 : List Fragment) :
    call_bedrock_agent (.ok (l1 ++ none :: l2)) =
      call_bedrock_agent (.ok (l1 ++ l2)) := by
  simp [call_bedrock_agent, accumulateCompletion_skips_chunkless]

/-- C9 counterexample: when the dedup write raises after a delivered
success notification, the same run sends BOTH the success variant and the
error variant — two outbound messages. -/
theorem two_variants_one_run_counterexample :
    notifyCount (lambda_handler cfgEx envMarkFailEx ctxEx [] (some bodyEx)).trace = 2 ∧
    (lambda_handler cfgEx envMarkFailEx ctxEx [] (some bodyEx)).trace.filter
        Effect.isNotifyCall =
      [.notifyCall (some "C1") (slackText (some "U1") "answer") (some "T1")
        (.responded 200),
       .notifyCall (some "C1") (slackText (some "U1") (apologyMessage "RedisError"))
        (some "T1") (.responded 200)] := by decide

/-- C9 amended: every run calls the notifier at most twice, and it is
called twice only when the agent invocation succeeded and then either the
success-notification post raised or the dedup write raised — i.e. only
when the error path runs after the success notification was already
attempted.  In every other run at most one outbound message is sent. -/
theorem at_most_two_notifications (cfg : Config) (env : Env) (ctx : Ctx)
    (store : Store) (body : Option BodyObj) :
    notifyCount (lambda_handler cfg env ctx store body).trace ≤ 2 ∧
    (notifyCount (lambda_handler cfg env ctx store body).trace = 2 →
      (∃ a, call_bedrock_agent env.invokeResult = .ok a) ∧
      ((∃ m, env.post1 = .raised m) ∨ (∃ m, env.markErr = some m))) := by
  cases body with
  | none => simp [lambda_handler, notifyCount]
  | some b =>
    cases hre : env.readErr with
    | some m => simp [lambda_handler, hre, notifyCount]
    | none =>
      cases hdup : Store.existsKey store b.event_id with
      | true => simp [lambda_handler, hre, hdup, notifyCount, Effect.isNotifyCall]
      | false =>
        cases hevent : b.event with
        | none => simp [lambda_handler, hre, hdup, hevent, notifyCount, Effect.isNotifyCall]
        | some ev =>
          by_cases huser : ev.user = some cfg.slack_bot_user_id
          · simp [lambda_handler, hre, hdup, hevent, huser, notifyCount, Effect.isNotifyCall]
          · cases htext : ev.text with
            | none =>
              simp [lambda_handler, hre, hdup, hevent, huser, htext, notifyCount,
                Effect.isNotifyCall]
            | some t =>
              cases hca : call_bedrock_agent env.invokeResult with
              | error e =>
                cases hp1 : env.post1 <;>
                  simp [lambda_handler, hre, hdup, hevent, huser, htext, hca, hp1,
                    notifyCount, Effect.isNotifyCall]
              | ok a =>
                cases hp1 : env.post1 with
                | raised m1 =>
                  cases hp2 : env.post2 <;>
                    simp [lambda_handler, hre, hdup, hevent, huser, htext, hca, hp1,
                      hp2, notifyCount, Effect.isNotifyCall]
                | responded st =>
                  cases hme : env.markErr with
                  | some e2 =>
                    cases hp2 : env.post2 <;>
                      simp [lambda_handler, hre, hdup, hevent, huser, htext, hca, hp1,
                        hp2, hme, notifyCount, Effect.isNotifyCall]
                  | none =>
                    simp [lambda_handler, hre, hdup, hevent, huser, htext, hca, hp1,
                      hme, notifyCount, Effect.isNotifyCall]

/-- C9 witness: the amended statement evaluated at the mark-failure
environment where two messages are in fact sent. -/
theorem at_most_two_notifications_witness :
    notifyCount (lambda_handler cfgEx envMarkFailEx ctxEx [] (some bodyEx)).trace ≤ 2 ∧
    (notifyCount (lambda_handler cfgEx envMarkFailEx ctxEx [] (some bodyEx)).trace = 2 →
      (∃ a, call_bedrock_agent envMarkFailEx.invokeResult = .ok a) ∧
      ((∃ m, envMarkFailEx.post1 = .raised m) ∨ (∃ m, envMarkFailEx.markErr = some m))) :=
  at_most_two_notifications cfgEx envMarkFailEx ctxEx [] (some bodyEx)

end BedrockSlackBot
